import Mathlib

/-
Verification development for the crypto-price-tracker backend.

Shallow embedding of the Python modules under backend/src:
  - lib/retry.py               (is_retryable_error, exponential_backoff_delay,
                                retry_with_backoff)
  - lib/formatters.py          (MarketCategory, compute_market_cap_category)
  - services/validation_service.py
                               (validate_cryptocurrency, validate_price_data_point,
                                filter_valid_cryptocurrencies)
  - services/cache_service.py  (CacheService._get_json, CacheService._set_json)
  - services/coingecko_client.py    (map_sparkline_data)
  - services/coinmarketcap_client.py (map_coinmarketcap_response)

Modelling conventions:
  - Python floats are modelled as rationals (ℚ); NaN and the infinities get
    their own constructors in the dynamic-value type PyVal.
  - Python datetimes are modelled as an epoch-seconds rational together with a
    Boolean that records whether the datetime is timezone-aware.
  - Fallible Python code is modelled with Except; an uncaught Python exception
    is an Except.error value.
  - Dynamically typed dictionaries (the raw API records that the validation
    service receives) are association lists from string keys to PyVal.
-/

/-- Dynamic Python value, covering the value shapes the validation service
inspects: None, str, int, float (finite / nan / inf / -inf), datetime
(epoch seconds plus awareness flag), list, and dict. -/
inductive PyVal where
  | none
  | str (s : String)
  | int (n : Int)
  | float (q : ℚ)
  | nan
  | inf
  | ninf
  | datetime (t : ℚ) (aware : Bool)
  | list (xs : List PyVal)
  | dict (entries : List (String × PyVal))

/-- A Python dict with string keys, as received by the validation service. -/
abbrev PyDict := List (String × PyVal)

/-- Python exceptions that can escape the embedded fragments. -/
inductive PyError where
  | typeError
  | keyError
  | connectionError
  | jsonDecodeError
deriving DecidableEq

/-- dict.get(key): the stored value, or None when the key is absent. -/
def pyGet (d : PyDict) (key : String) : PyVal :=
  match d.find? (fun kv => kv.1 == key) with
  | some kv => kv.2
  | Option.none => .none

/-- dict.get(key, default): the stored value, or the default when absent. -/
def pyGetD (d : PyDict) (key : String) (dflt : PyVal) : PyVal :=
  match d.find? (fun kv => kv.1 == key) with
  | some kv => kv.2
  | Option.none => dflt

/-- Python truthiness for the modelled value shapes. -/
def pyTruthy : PyVal → Bool
  | .none => false
  | .str s => !s.isEmpty
  | .int n => n != 0
  | .float q => q != 0
  | .nan => true
  | .inf => true
  | .ninf => true
  | .datetime _ _ => true
  | .list xs => !xs.isEmpty
  | .dict es => !es.isEmpty

/-- isinstance(v, str). -/
def isStr : PyVal → Bool
  | .str _ => true
  | _ => false

/-- isinstance(v, (int, float)); NaN and the infinities are floats. -/
def isNumber : PyVal → Bool
  | .int _ => true
  | .float _ => true
  | .nan => true
  | .inf => true
  | .ninf => true
  | _ => false

/-- isinstance(v, int). -/
def isInt : PyVal → Bool
  | .int _ => true
  | _ => false

/-- isinstance(v, datetime). -/
def isDatetime : PyVal → Bool
  | .datetime _ _ => true
  | _ => false

/-- isinstance(v, list). -/
def isList : PyVal → Bool
  | .list _ => true
  | _ => false

/-- The comparison `v <= c` for a numeric Python value (guarded by isNumber in
the source); comparisons against NaN are false, -inf compares below
everything. -/
def pyNumLe (v : PyVal) (c : ℚ) : Bool :=
  match v with
  | .int n => decide ((n : ℚ) ≤ c)
  | .float q => decide (q ≤ c)
  | .ninf => true
  | _ => false

/-- The comparison `v < c` for a numeric Python value. -/
def pyNumLt (v : PyVal) (c : ℚ) : Bool :=
  match v with
  | .int n => decide ((n : ℚ) < c)
  | .float q => decide (q < c)
  | .ninf => true
  | _ => false

/-- math-based finiteness check `_is_finite` from validation_service.py:
not (isnan or isinf). -/
def pyFinite : PyVal → Bool
  | .int _ => true
  | .float _ => true
  | _ => false

/- ===== lib/retry.py ===== -/

/-- The httpx / asyncio exception shapes classified by retry.py.
httpx.ConnectTimeout is a subclass of httpx.TimeoutException, which the
isinstance checks below take into account. -/
inductive PyExc where
  | timeoutException
  | asyncioTimeoutError
  | connectError
  | connectTimeout
  | httpStatusError (statusCode : Nat)
  | otherError
deriving DecidableEq

/-- isinstance(e, (httpx.TimeoutException, asyncio.TimeoutError)); in httpx,
ConnectTimeout subclasses TimeoutException. -/
def isTimeoutExc : PyExc → Bool
  | .timeoutException => true
  | .asyncioTimeoutError => true
  | .connectTimeout => true
  | _ => false

/-- isinstance(e, (httpx.ConnectError, httpx.ConnectTimeout)). -/
def isConnectExc : PyExc → Bool
  | .connectError => true
  | .connectTimeout => true
  | _ => false

/-- isinstance(e, httpx.HTTPStatusError). -/
def isHTTPStatusExc : PyExc → Bool
  | .httpStatusError _ => true
  | _ => false

/-- e.response.status_code (0 for the non-HTTP shapes; only read under the
isHTTPStatusExc guard). -/
def statusCodeOf : PyExc → Nat
  | .httpStatusError code => code
  | _ => 0

/-- is_retryable_error from retry.py lines 31-58, with the branch order of the
source preserved.  Note the second HTTPStatusError branch (the 429 check at
lines 54-55) is dead code: the first HTTPStatusError branch at lines 50-51
already returns for every HTTPStatusError. -/
def is_retryable_error (e : PyExc) : Bool :=
  if isTimeoutExc e then true
  else if isConnectExc e then true
  else if isHTTPStatusExc e then decide (500 ≤ statusCodeOf e ∧ statusCodeOf e < 600)
  else if isHTTPStatusExc e then statusCodeOf e == 429
  else false

/-- The amount slept by exponential_backoff_delay(attempt, base_delay)
(retry.py line 76): min(base_delay * 2 ** attempt, 30.0). -/
def exponential_backoff_delay (attempt : Nat) (base_delay : ℚ) : ℚ :=
  min (base_delay * 2 ^ attempt) 30

/-- Result of one invocation of the wrapped operation: a returned value or a
raised exception. -/
inductive AttemptResult (α : Type) where
  | ok (v : α)
  | err (e : PyExc)

/-- Terminal outcome of the retry wrapper: the wrapped value, an exception
propagated as-is, RetryExhausted(attempts, last), or the (unreachable for
max_attempts > 0) failed assertion after the loop. -/
inductive RetryOutcome (α : Type) where
  | ok (v : α)
  | raised (e : PyExc)
  | retryExhausted (attempts : Nat) (last : PyExc)
  | assertFailed

/-- The wrapper loop of retry_with_backoff (retry.py lines 109-141), embedded
with explicit fuel (the number of loop iterations still allowed, initially
max_attempts).  `caught` is the isinstance test against the
retryable_exceptions tuple of the decorator; `outcomes` gives the result of
each 0-indexed invocation of the wrapped function.  Returns the terminal
outcome, the list of sleeps performed (in order), and the number of times the
wrapped function was invoked. -/
def retryLoop (caught : PyExc → Bool) (maxAttempts : Nat) (base : ℚ)
    (outcomes : Nat → AttemptResult α) :
    Nat → Option PyExc → Nat → RetryOutcome α × List ℚ × Nat
  | _attempt, last, 0 =>
    match last with
    | some e => (.retryExhausted maxAttempts e, [], 0)
    | Option.none => (.assertFailed, [], 0)
  | attempt, _last, fuel + 1 =>
    match outcomes attempt with
    | .ok v => (.ok v, [], 1)
    | .err e =>
      if caught e = false then (.raised e, [], 1)
      else if is_retryable_error e = false then (.raised e, [], 1)
      else if attempt = maxAttempts - 1 then (.retryExhausted maxAttempts e, [], 1)
      else
        let rest := retryLoop caught maxAttempts base outcomes (attempt + 1) (some e) fuel
        (rest.1, exponential_backoff_delay attempt base :: rest.2.1, rest.2.2 + 1)

/-- retry_with_backoff(max_attempts, base_delay, retryable_exceptions) applied
to an operation whose per-attempt results are `outcomes`. -/
def retry_with_backoff (caught : PyExc → Bool) (maxAttempts : Nat) (base : ℚ)
    (outcomes : Nat → AttemptResult α) : RetryOutcome α × List ℚ × Nat :=
  retryLoop caught maxAttempts base outcomes 0 Option.none maxAttempts

/- ===== lib/formatters.py ===== -/

/-- MarketCategory enum from formatters.py. -/
inductive MarketCategory where
  | large
  | mid
  | small
deriving DecidableEq

/-- The string value carried by each MarketCategory enum member. -/
def MarketCategory.value : MarketCategory → String
  | .large => "large"
  | .mid => "mid"
  | .small => "small"

/-- compute_market_cap_category from formatters.py lines 123-150. -/
def compute_market_cap_category (market_cap : ℚ) : MarketCategory :=
  if market_cap > 10000000000 then .large
  else if market_cap ≥ 1000000000 then .mid
  else .small

/- ===== services/validation_service.py ===== -/

/-- The validation error messages appended by validate_cryptocurrency and
validate_price_data_point, as symbolic error values; the interpolated data of
a message (the computed age, a sparkline index) is carried as an argument. -/
inductive VError where
  | invalidId
  | invalidSymbol
  | invalidName
  | invalidCurrentPrice
  | invalidMarketCap
  | invalidVolume24h
  | invalidPriceChange24h
  | invalidPriceChangePercent24h
  | invalidRank
  | invalidLastUpdatedType
  | staleLastUpdated (ageMinutes : ℚ)
  | invalidSparklineType
  | sparklineTooLong
  | invalidSparklinePointType (i : Nat)
  | invalidSparklineTimestamp (i : Nat)
  | invalidSparklinePrice (i : Nat)
  | invalidPriceDirection
  | invalidMarketCapCategory
  | invalidTimestamp
  | invalidPrice
deriving DecidableEq

/-- ValidationResult from validation_service.py lines 13-28. -/
structure ValidationResult where
  is_valid : Bool
  errors : List VError
  data : Option PyDict

/-- The `not data.get(key) or not isinstance(data[key], str)` required-string
check shared by the id, symbol and name validations (lines 56-63). -/
def requiredStringError (data : PyDict) (key : String) (e : VError) : List VError :=
  if !(pyTruthy (pyGet data key)) || !(isStr (pyGet data key)) then [e] else []

/-- currentPrice check (lines 66-68): must be a positive number. -/
def currentPriceErrors (data : PyDict) : List VError :=
  let current_price := pyGet data "currentPrice"
  if !(isNumber current_price) || pyNumLe current_price 0 then [.invalidCurrentPrice] else []

/-- marketCap check (lines 70-72): must be a positive number. -/
def marketCapErrors (data : PyDict) : List VError :=
  let market_cap := pyGet data "marketCap"
  if !(isNumber market_cap) || pyNumLe market_cap 0 then [.invalidMarketCap] else []

/-- volume24h check (lines 74-76): must be a non-negative number. -/
def volume24hErrors (data : PyDict) : List VError :=
  let volume_24h := pyGet data "volume24h"
  if !(isNumber volume_24h) || pyNumLt volume_24h 0 then [.invalidVolume24h] else []

/-- priceChange24h check (lines 78-80): must be a number. -/
def priceChange24hErrors (data : PyDict) : List VError :=
  let price_change_24h := pyGet data "priceChange24h"
  if !(isNumber price_change_24h) then [.invalidPriceChange24h] else []

/-- priceChangePercent24h check (lines 83-90): must be a finite number. -/
def priceChangePercentErrors (data : PyDict) : List VError :=
  let price_change_percent := pyGet data "priceChangePercent24h"
  if !(isNumber price_change_percent) || !(pyFinite price_change_percent) then
    [.invalidPriceChangePercent24h]
  else []

/-- rank check (lines 93-95): must be an int in [1, 20]. -/
def rankErrors (data : PyDict) : List VError :=
  match pyGet data "rank" with
  | .int n => if n < 1 ∨ n > 20 then [.invalidRank] else []
  | _ => [.invalidRank]

/-- lastUpdated check (lines 98-110).  A non-datetime value gets a type error
message.  For a datetime value the source computes
`datetime.now(timezone.utc) - last_updated`: when the stored datetime is
naive, subtracting it from an aware datetime raises TypeError, which this
embedding surfaces as Except.error; when aware, the age in minutes is
compared against the 5-minute freshness bound. -/
def lastUpdatedErrors (now : ℚ) (data : PyDict) : Except PyError (List VError) :=
  match pyGet data "lastUpdated" with
  | .datetime t aware =>
    if aware then
      let age_minutes := (now - t) / 60
      if age_minutes > 5 then .ok [.staleLastUpdated age_minutes] else .ok []
    else .error .typeError
  | _ => .ok [.invalidLastUpdatedType]

/-- Per-point sparkline checks from the loop body at lines 123-139; a
non-dict point gets only the point-type error (`continue`). -/
def sparklinePointErrors (i : Nat) (point : PyVal) : List VError :=
  match point with
  | .dict p =>
    (if !(isDatetime (pyGet p "timestamp")) then [.invalidSparklineTimestamp i] else []) ++
      (let price := pyGet p "price"
       if !(isNumber price) || pyNumLe price 0 then [.invalidSparklinePrice i] else [])
  | _ => [.invalidSparklinePointType i]

/-- The enumerate loop over sparkline points, carrying the running index. -/
def sparklinePointsErrors : Nat → List PyVal → List VError
  | _, [] => []
  | i, point :: rest => sparklinePointErrors i point ++ sparklinePointsErrors (i + 1) rest

/-- sparklineData check (lines 113-139): must be a list of at most 168 valid
price points. -/
def sparklineErrors (data : PyDict) : List VError :=
  match pyGet data "sparklineData" with
  | .list xs =>
    if xs.length > 168 then [.sparklineTooLong]
    else if xs.length > 0 then sparklinePointsErrors 0 xs
    else []
  | _ => [.invalidSparklineType]

/-- priceDirection check (lines 142-144): membership in ["up", "down"];
Python string equality is only satisfiable by str values. -/
def priceDirectionErrors (data : PyDict) : List VError :=
  match pyGet data "priceDirection" with
  | .str s => if s = "up" ∨ s = "down" then [] else [.invalidPriceDirection]
  | _ => [.invalidPriceDirection]

/-- marketCapCategory check (lines 147-151): membership in
["small", "mid", "large"]. -/
def marketCapCategoryErrors (data : PyDict) : List VError :=
  match pyGet data "marketCapCategory" with
  | .str s => if s = "small" ∨ s = "mid" ∨ s = "large" then [] else [.invalidMarketCapCategory]
  | _ => [.invalidMarketCapCategory]

/-- The full error accumulation of validate_cryptocurrency (lines 53-151), in
source order.  `now` is the evaluation-time clock datetime.now(timezone.utc),
as epoch seconds.  Only the lastUpdated check can raise. -/
def cryptoErrors (now : ℚ) (data : PyDict) : Except PyError (List VError) :=
  match lastUpdatedErrors now data with
  | .error e => .error e
  | .ok luErrors =>
    .ok (requiredStringError data "id" .invalidId ++
      requiredStringError data "symbol" .invalidSymbol ++
      requiredStringError data "name" .invalidName ++
      currentPriceErrors data ++
      marketCapErrors data ++
      volume24hErrors data ++
      priceChange24hErrors data ++
      priceChangePercentErrors data ++
      rankErrors data ++
      luErrors ++
      sparklineErrors data ++
      priceDirectionErrors data ++
      marketCapCategoryErrors data)

/-- The final ValidationResult construction shared by both validators
(lines 153-157 and 181-185): is_valid is len(errors) == 0 and data is the
input when valid, None otherwise. -/
def mkValidationResult (errors : List VError) (data : PyDict) : ValidationResult :=
  { is_valid := errors.isEmpty
    errors := errors
    data := if errors.isEmpty then some data else Option.none }

/-- validate_cryptocurrency from validation_service.py lines 31-157: builds
the ValidationResult from the accumulated errors (lines 153-157). -/
def validate_cryptocurrency (now : ℚ) (data : PyDict) : Except PyError ValidationResult :=
  match cryptoErrors now data with
  | .error e => .error e
  | .ok errors => .ok (mkValidationResult errors data)

/-- The error accumulation of validate_price_data_point (lines 170-179). -/
def pricePointErrors (point : PyDict) : List VError :=
  (if !(isDatetime (pyGet point "timestamp")) then [VError.invalidTimestamp] else []) ++
    (let price := pyGet point "price"
     if !(isNumber price) || pyNumLe price 0 then [VError.invalidPrice] else [])

/-- validate_price_data_point from validation_service.py lines 160-185
(total: no datetime arithmetic is performed). -/
def validate_price_data_point (point : PyDict) : ValidationResult :=
  mkValidationResult (pricePointErrors point) point

/-- The entry appended to invalid_cryptos for a rejected record
(validation_service.py lines 236-242). -/
structure RejectedEntry where
  id : PyVal
  errors : List VError
  data : PyDict

/-- Builds the rejected-entry dict of lines 237-241. -/
def mkRejectedEntry (validation : ValidationResult) (crypto_data : PyDict) : RejectedEntry :=
  { id := pyGetD crypto_data "id" (.str "unknown")
    errors := validation.errors
    data := crypto_data }

/-- filter_valid_cryptocurrencies from validation_service.py lines 203-253.
The loop appends `validation.data` when `validation.is_valid and
validation.data` is truthy (a None data or an empty dict is falsy) and
otherwise appends the rejected-entry dict; an exception raised by
validate_cryptocurrency propagates and aborts the whole call. -/
def filter_valid_cryptocurrencies (now : ℚ) :
    List PyDict → Except PyError (List PyDict × List RejectedEntry)
  | [] => .ok ([], [])
  | crypto_data :: rest =>
    match validate_cryptocurrency now crypto_data with
    | .error e => .error e
    | .ok validation =>
      match filter_valid_cryptocurrencies now rest with
      | .error e => .error e
      | .ok (valid_cryptos, invalid_cryptos) =>
        match validation.data with
        | some d =>
          if validation.is_valid && !d.isEmpty then
            .ok (d :: valid_cryptos, invalid_cryptos)
          else
            .ok (valid_cryptos, mkRejectedEntry validation crypto_data :: invalid_cryptos)
        | Option.none =>
          .ok (valid_cryptos, mkRejectedEntry validation crypto_data :: invalid_cryptos)

/- ===== services/cache_service.py ===== -/

/-- The Redis client operations used by CacheService: GET and SETEX, each of
which may raise (connection failures, backing-store failures). -/
structure CacheBackend where
  get : String → Except PyError (Option String)
  setex : String → Nat → String → Except PyError Unit

/-- Outcome of a Python call at the caller boundary: a normal return or a
propagated exception. -/
inductive PyResult (α : Type) where
  | ret (a : α)
  | raised (e : PyError)
deriving DecidableEq

/-- The try-block body of CacheService._get_json (cache_service.py lines
172-180): obtain the client, read the key, return None on a miss, otherwise
deserialize.  `getClient` models self._get_client() (which may raise) and
`jsonLoads` models json.loads (which may raise on malformed payloads). -/
def getJsonBody (getClient : Except PyError CacheBackend)
    (jsonLoads : String → Except PyError PyVal) (key : String) :
    Except PyError (Option PyVal) :=
  match getClient with
  | .error e => .error e
  | .ok client =>
    match client.get key with
    | .error e => .error e
    | .ok Option.none => .ok Option.none
    | .ok (some value) =>
      match jsonLoads value with
      | .error e => .error e
      | .ok v => .ok (some v)

/-- CacheService._get_json (lines 162-184): the whole body runs under
`except Exception`, which logs and returns None, so every failure is
converted into the cache-miss result. -/
def cacheGetJson (getClient : Except PyError CacheBackend)
    (jsonLoads : String → Except PyError PyVal) (key : String) :
    PyResult (Option PyVal) :=
  match getJsonBody getClient jsonLoads key with
  | .ok v => .ret v
  | .error _ => .ret Option.none

/-- The try-block body of CacheService._set_json (lines 197-203): obtain the
client, serialize (json.dumps with the datetime-aware serializer, which
raises TypeError on unserializable values), then SETEX. -/
def setJsonBody (getClient : Except PyError CacheBackend)
    (jsonDumps : PyVal → Except PyError String) (key : String) (data : PyVal) (ttl : Nat) :
    Except PyError Unit :=
  match getClient with
  | .error e => .error e
  | .ok client =>
    match jsonDumps data with
    | .error e => .error e
    | .ok value => client.setex key ttl value

/-- CacheService._set_json (lines 186-207): the whole body runs under
`except Exception`, which logs and falls through, so the call always returns
normally. -/
def cacheSetJson (getClient : Except PyError CacheBackend)
    (jsonDumps : PyVal → Except PyError String) (key : String) (data : PyVal) (ttl : Nat) :
    PyResult Unit :=
  match setJsonBody getClient jsonDumps key data ttl with
  | .ok _ => .ret ()
  | .error _ => .ret ()

/- ===== services/coingecko_client.py ===== -/

/-- PriceDataPoint produced by map_sparkline_data: a timestamp (epoch
seconds) and a price. -/
structure PricePoint where
  timestamp : ℚ
  price : ℚ
deriving DecidableEq

/-- now.replace(minute=0, second=0, microsecond=0) for a UTC datetime:
truncation of the epoch-seconds clock down to the enclosing hour. -/
def truncToHour (now : ℚ) : ℚ :=
  3600 * (⌊now / 3600⌋ : ℤ)

/-- The enumerate loop of map_sparkline_data (coingecko_client.py lines
194-201), carrying the total length n and the running index i:
hours_ago = n - i - 1 and the timestamp is the truncated clock minus
hours_ago hours. -/
def sparklineLoop (now : ℚ) (n : Nat) : Nat → List ℚ → List PricePoint
  | _, [] => []
  | i, price :: rest =>
    { timestamp := truncToHour now - 3600 * ((n - i - 1 : Nat) : ℚ), price := price } ::
      sparklineLoop now n (i + 1) rest

/-- map_sparkline_data from coingecko_client.py lines 175-203: an empty price
array maps to the empty list, otherwise each price is paired with a
timestamp counted backward from the current top-of-hour. -/
def map_sparkline_data (now : ℚ) (prices : List ℚ) : List PricePoint :=
  if prices = [] then []
  else sparklineLoop now prices.length 0 prices

/- ===== services/coinmarketcap_client.py ===== -/

/-- The fields of api_data["quote"]["USD"] read by the CoinMarketCap mapper. -/
structure CmcQuoteUsd where
  price : ℚ
  market_cap : ℚ
  volume_24h : ℚ
  percent_change_24h : ℚ
  last_updated : String

/-- The fields of a CoinMarketCap listing entry read by the mapper. -/
structure CmcListing where
  symbol : String
  name : String
  cmc_rank : Int
  quoteUsd : CmcQuoteUsd

/-- The canonical Cryptocurrency record built by the response mappers. -/
structure Cryptocurrency where
  id : String
  symbol : String
  name : String
  currentPrice : ℚ
  marketCap : ℚ
  volume24h : ℚ
  priceChange24h : ℚ
  priceChangePercent24h : ℚ
  sparklineData : List PricePoint
  rank : Int
  lastUpdated : ℚ
  priceDirection : String
  marketCapCategory : MarketCategory

/-- map_coinmarketcap_response from coinmarketcap_client.py lines 99-143.
`fromiso` models datetime.fromisoformat (external standard-library parsing)
applied after the Z-suffix rewrite; the absolute 24h change is computed from
the percentage change and the price, and sparklineData is always empty (free
tier limitation). -/
def map_coinmarketcap_response (fromiso : String → ℚ) (api_data : CmcListing) :
    Cryptocurrency :=
  let usd_quote := api_data.quoteUsd
  let price_change_24h := usd_quote.percent_change_24h / 100 * usd_quote.price
  { id := api_data.symbol.toLower
    symbol := api_data.symbol
    name := api_data.name
    currentPrice := usd_quote.price
    marketCap := usd_quote.market_cap
    volume24h := usd_quote.volume_24h
    priceChange24h := price_change_24h
    priceChangePercent24h := usd_quote.percent_change_24h
    sparklineData := []
    rank := api_data.cmc_rank
    lastUpdated := fromiso (usd_quote.last_updated.replace "Z" "+00:00")
    priceDirection := if usd_quote.percent_change_24h ≥ 0 then "up" else "down"
    marketCapCategory := compute_market_cap_category usd_quote.market_cap }

/- ===== Concrete inputs used by the witnesses and counterexamples ===== -/

/-- A record that passes every validation check when the clock reads epoch
second 0. -/
def recGood : PyDict :=
  [("id", .str "bitcoin"), ("symbol", .str "BTC"), ("name", .str "Bitcoin"),
   ("currentPrice", .int 50000), ("marketCap", .int 1000000000), ("volume24h", .int 0),
   ("priceChange24h", .int 100), ("priceChangePercent24h", .float 1),
   ("rank", .int 1), ("lastUpdated", .datetime 0 true),
   ("sparklineData", .list []), ("priceDirection", .str "up"),
   ("marketCapCategory", .str "mid")]

/-- The ValidationResult produced for recGood at clock 0. -/
def recGoodResult : ValidationResult :=
  { is_valid := true, errors := [], data := some recGood }

/-- The errors accumulated for the empty record. -/
def emptyRecErrors : List VError :=
  [.invalidId, .invalidSymbol, .invalidName, .invalidCurrentPrice, .invalidMarketCap,
   .invalidVolume24h, .invalidPriceChange24h, .invalidPriceChangePercent24h, .invalidRank,
   .invalidLastUpdatedType, .invalidSparklineType, .invalidPriceDirection,
   .invalidMarketCapCategory]

/-- The rejected entry produced for the empty record. -/
def rejEmptyEntry : RejectedEntry :=
  { id := .str "unknown", errors := emptyRecErrors, data := [] }

/-- A record whose lastUpdated field is a naive datetime. -/
def naiveRecord : PyDict := [("lastUpdated", .datetime 0 false)]

/-- A CoinMarketCap listing with percent_change_24h = 2.5 and price = 100. -/
def cmcSample : CmcListing :=
  { symbol := "BTC", name := "Bitcoin", cmc_rank := 1,
    quoteUsd := { price := 100, market_cap := 900000000000, volume_24h := 20000000000,
                  percent_change_24h := 5 / 2, last_updated := "2024-01-01T00:00:00Z" } }

/-- A backing store whose every operation fails. -/
def failingBackend : CacheBackend :=
  { get := fun _ => .error .connectionError, setex := fun _ _ _ => .error .connectionError }

/-- A backing store that always reports a miss and accepts writes. -/
def missBackend : CacheBackend :=
  { get := fun _ => .ok Option.none, setex := fun _ _ _ => .ok () }

/-- A deserializer that wraps the stored payload as a string value. -/
def okLoads : String → Except PyError PyVal := fun s => .ok (.str s)

/-- A serializer that fails on every value, as json.dumps does on an
unserializable object. -/
def failDumps : PyVal → Except PyError String := fun _ => .error .typeError

/- ===== Supporting lemmas ===== -/

/-- At clock 0, the lastUpdated check accepts recGood. -/
theorem lastUpdated_recGood : lastUpdatedErrors 0 recGood = .ok [] := by
  simp [lastUpdatedErrors, show pyGet recGood "lastUpdated" = .datetime 0 true from rfl]

/-- At clock 0, recGood accumulates no validation errors. -/
theorem cryptoErrors_recGood : cryptoErrors 0 recGood = .ok [] := by
  rw [cryptoErrors, lastUpdated_recGood]
  simp [requiredStringError, currentPriceErrors, marketCapErrors, volume24hErrors,
    priceChange24hErrors, priceChangePercentErrors, rankErrors, sparklineErrors,
    priceDirectionErrors, marketCapCategoryErrors,
    show pyGet recGood "id" = .str "bitcoin" from rfl,
    show pyGet recGood "symbol" = .str "BTC" from rfl,
    show pyGet recGood "name" = .str "Bitcoin" from rfl,
    show pyGet recGood "currentPrice" = .int 50000 from rfl,
    show pyGet recGood "marketCap" = .int 1000000000 from rfl,
    show pyGet recGood "volume24h" = .int 0 from rfl,
    show pyGet recGood "priceChange24h" = .int 100 from rfl,
    show pyGet recGood "priceChangePercent24h" = .float 1 from rfl,
    show pyGet recGood "rank" = .int 1 from rfl,
    show pyGet recGood "sparklineData" = .list [] from rfl,
    show pyGet recGood "priceDirection" = .str "up" from rfl,
    show pyGet recGood "marketCapCategory" = .str "mid" from rfl,
    pyTruthy, isStr, isNumber, pyNumLe, pyNumLt, pyFinite]
  decide

/-- At clock 0, validate_cryptocurrency accepts recGood. -/
theorem validate_recGood : validate_cryptocurrency 0 recGood = .ok recGoodResult := by
  rw [validate_cryptocurrency, cryptoErrors_recGood]; rfl

/-- The empty record accumulates exactly the thirteen errors of
emptyRecErrors, at any clock. -/
theorem cryptoErrors_nil (now : ℚ) : cryptoErrors now [] = .ok emptyRecErrors := rfl

/-- The empty record is rejected with the errors of emptyRecErrors. -/
theorem validate_nil (now : ℚ) :
    validate_cryptocurrency now [] = .ok (mkValidationResult emptyRecErrors []) := by
  rw [validate_cryptocurrency, cryptoErrors_nil]

/-- The concrete two-record batch filters into one valid and one rejected
record. -/
theorem filter_concrete :
    filter_valid_cryptocurrencies 0 [recGood, []] = .ok ([recGood], [rejEmptyEntry]) := by
  rw [filter_valid_cryptocurrencies, validate_recGood, filter_valid_cryptocurrencies,
    validate_nil 0, filter_valid_cryptocurrencies]
  rfl

/-- The second sleep of a four-attempt all-500 run at base 1/2 is 1 second. -/
theorem retry_sleeps_concrete :
    ((retry_with_backoff (fun _ => true) 4 (1 / 2)
        (fun _ => AttemptResult.err (PyExc.httpStatusError 500)) :
      RetryOutcome Unit × List ℚ × Nat).2.1)[1]? = some 1 := by
  rw [retry_with_backoff]
  rw [show (4 : Nat) = 3 + 1 from rfl, retryLoop]
  norm_num [is_retryable_error, isTimeoutExc, isConnectExc, isHTTPStatusExc, statusCodeOf]
  rw [show (3 : Nat) = 2 + 1 from rfl, retryLoop]
  norm_num [is_retryable_error, isTimeoutExc, isConnectExc, isHTTPStatusExc, statusCodeOf,
    exponential_backoff_delay]

/-- The is_valid flag of mkValidationResult tracks emptiness of the error
list, and data is the validated input exactly when no error accumulated. -/
theorem mkValidationResult_invariant (errors : List VError) (d : PyDict) :
    ((mkValidationResult errors d).is_valid = true ↔ (mkValidationResult errors d).errors = []) ∧
    ((mkValidationResult errors d).is_valid = true → (mkValidationResult errors d).data = some d) ∧
    ((mkValidationResult errors d).is_valid = false →
      (mkValidationResult errors d).data = Option.none) := by
  cases errors <;> simp [mkValidationResult]

/-- Every successful validate_cryptocurrency result is a mkValidationResult
of the accumulated errors. -/
theorem validate_ok_shape (now : ℚ) (d : PyDict) (res : ValidationResult)
    (h : validate_cryptocurrency now d = .ok res) :
    ∃ es, cryptoErrors now d = .ok es ∧ res = mkValidationResult es d := by
  rw [validate_cryptocurrency] at h
  cases hc : cryptoErrors now d with
  | error e => rw [hc] at h; cases h
  | ok es =>
    simp only [hc, Except.ok.injEq] at h
    exact ⟨es, rfl, h.symm⟩

/-- A record accepted by validate_cryptocurrency is not the empty dict. -/
theorem validate_valid_ne_nil (now : ℚ) (d : PyDict) (res : ValidationResult)
    (h : validate_cryptocurrency now d = .ok res) (hv : res.is_valid = true) :
    d ≠ [] := by
  intro hd
  subst hd
  rw [validate_nil now] at h
  injection h with h2
  rw [← h2] at hv
  simp [mkValidationResult, emptyRecErrors] at hv

/-- Inversion of one step of filter_valid_cryptocurrencies on a cons cell:
the head record validated without raising, the tail filtered without
raising, and the head either landed at the front of the valid list (when
accepted) or at the front of the rejected list. -/
theorem filter_cons_inversion (now : ℚ) (r : PyDict) (rest : List PyDict)
    (valid : List PyDict) (rejected : List RejectedEntry)
    (h : filter_valid_cryptocurrencies now (r :: rest) = .ok (valid, rejected)) :
    ∃ validation vs ivs,
      validate_cryptocurrency now r = .ok validation ∧
      filter_valid_cryptocurrencies now rest = .ok (vs, ivs) ∧
      ((∃ d, validation.data = some d ∧ (validation.is_valid && !d.isEmpty) = true ∧
          valid = d :: vs ∧ rejected = ivs) ∨
        ((validation.data = Option.none ∨
            ∃ d, validation.data = some d ∧ (validation.is_valid && !d.isEmpty) = false) ∧
          valid = vs ∧ rejected = mkRejectedEntry validation r :: ivs)) := by
  rw [filter_valid_cryptocurrencies] at h
  cases hv : validate_cryptocurrency now r with
  | error e => rw [hv] at h; cases h
  | ok validation =>
    simp only [hv] at h
    cases hf : filter_valid_cryptocurrencies now rest with
    | error e => rw [hf] at h; cases h
    | ok p =>
      obtain ⟨vs, ivs⟩ := p
      simp only [hf] at h
      refine ⟨validation, vs, ivs, rfl, rfl, ?_⟩
      cases hd : validation.data with
      | none =>
        simp only [hd, Except.ok.injEq, Prod.mk.injEq] at h
        exact Or.inr ⟨Or.inl rfl, h.1.symm, h.2.symm⟩
      | some d =>
        simp only [hd] at h
        cases hc : (validation.is_valid && !d.isEmpty) with
        | true =>
          rw [hc, if_pos rfl] at h
          simp only [Except.ok.injEq, Prod.mk.injEq] at h
          exact Or.inl ⟨d, rfl, hc, h.1.symm, h.2.symm⟩
        | false =>
          rw [hc, if_neg (by simp)] at h
          simp only [Except.ok.injEq, Prod.mk.injEq] at h
          exact Or.inr ⟨Or.inr ⟨d, rfl, hc⟩, h.1.symm, h.2.symm⟩

/-- The valid and rejected lists of filter_valid_cryptocurrencies partition
the batch by count. -/
theorem filter_length (now : ℚ) :
    ∀ (batch valid : List PyDict) (rejected : List RejectedEntry),
      filter_valid_cryptocurrencies now batch = .ok (valid, rejected) →
      valid.length + rejected.length = batch.length := by
  intro batch
  induction batch with
  | nil =>
    intro valid rejected h
    rw [filter_valid_cryptocurrencies] at h
    simp only [Except.ok.injEq, Prod.mk.injEq] at h
    rw [← h.1, ← h.2]
    rfl
  | cons r rest ih =>
    intro valid rejected h
    obtain ⟨validation, vs, ivs, _, hf, hcase⟩ :=
      filter_cons_inversion now r rest valid rejected h
    have ihl := ih vs ivs hf
    rcases hcase with ⟨d, _, _, hval, hrej⟩ | ⟨_, hval, hrej⟩ <;>
      subst hval <;> subst hrej <;> simp only [List.length_cons] <;> omega

/-- Every member of the valid list of filter_valid_cryptocurrencies was
accepted by validate_cryptocurrency. -/
theorem filter_valid_members (now : ℚ) :
    ∀ (batch valid : List PyDict) (rejected : List RejectedEntry),
      filter_valid_cryptocurrencies now batch = .ok (valid, rejected) →
      ∀ v ∈ valid, ∃ res, validate_cryptocurrency now v = .ok res ∧ res.is_valid = true := by
  intro batch
  induction batch with
  | nil =>
    intro valid rejected h v hv
    rw [filter_valid_cryptocurrencies] at h
    simp only [Except.ok.injEq, Prod.mk.injEq] at h
    rw [← h.1] at hv
    cases hv
  | cons r rest ih =>
    intro valid rejected h v hv
    obtain ⟨validation, vs, ivs, hval, hf, hcase⟩ :=
      filter_cons_inversion now r rest valid rejected h
    rcases hcase with ⟨d, hdata, hcond, hvalid, _⟩ | ⟨_, hvalid, _⟩
    · subst hvalid
      rcases List.mem_cons.mp hv with hvd | hvs
      · subst hvd
        obtain ⟨es, _, hshape⟩ := validate_ok_shape now r validation hval
        have hiv : validation.is_valid = true := by
          cases hb : validation.is_valid
          · rw [hb] at hcond; simp at hcond
          · rfl
        have hdr : validation.data = some r := by
          rw [hshape]
          rw [hshape] at hiv
          exact (mkValidationResult_invariant es r).2.1 hiv
        rw [hdr] at hdata
        injection hdata with hder
        rw [← hder]
        exact ⟨validation, hval, hiv⟩
      · exact ih vs ivs hf v hvs
    · subst hvalid
      exact ih _ _ hf v hv

/-- Every record of the batch that validate_cryptocurrency accepts is a
member of the valid list. -/
theorem filter_mem_of_valid (now : ℚ) :
    ∀ (batch valid : List PyDict) (rejected : List RejectedEntry),
      filter_valid_cryptocurrencies now batch = .ok (valid, rejected) →
      ∀ r ∈ batch, ∀ res, validate_cryptocurrency now r = .ok res → res.is_valid = true →
        r ∈ valid := by
  intro batch
  induction batch with
  | nil => intro valid rejected h r hr; cases hr
  | cons r0 rest ih =>
    intro valid rejected h r hr res hres hiv
    obtain ⟨validation, vs, ivs, hval, hf, hcase⟩ :=
      filter_cons_inversion now r0 rest valid rejected h
    rcases List.mem_cons.mp hr with hr0 | hrest
    · subst hr0
      rw [hres] at hval
      injection hval with hvaleq
      rw [← hvaleq] at hcase
      obtain ⟨es, _, hshape⟩ := validate_ok_shape now r res hres
      have hdr : res.data = some r := by
        rw [hshape]
        rw [hshape] at hiv
        exact (mkValidationResult_invariant es r).2.1 hiv
      have hne : r ≠ [] := validate_valid_ne_nil now r res hres hiv
      rcases hcase with ⟨d, hdata, _, hvalid, _⟩ | ⟨hbad, _, _⟩
      · rw [hdr] at hdata
        injection hdata with hder
        rw [hvalid, ← hder]
        exact List.mem_cons_self _ _
      · exfalso
        rcases hbad with hnone | ⟨d, hdata, hcond⟩
        · rw [hdr] at hnone; cases hnone
        · rw [hdr] at hdata
          injection hdata with hder
          rw [← hder] at hcond
          rw [hiv] at hcond
          have : r.isEmpty = false := by
            cases hrcase : r with
            | nil => exact absurd hrcase hne
            | cons a t => rfl
          rw [this] at hcond
          simp at hcond
    · rcases hcase with ⟨d, _, _, hvalid, _⟩ | ⟨_, hvalid, _⟩ <;> subst hvalid
      · exact List.mem_cons_of_mem _ (ih vs ivs hf r hrest res hres hiv)
      · exact ih _ _ hf r hrest res hres hiv

/-- Every rejected entry of filter_valid_cryptocurrencies comes from a batch
record that validate_cryptocurrency rejected, and carries that record, its
looked-up id, and its error list. -/
theorem filter_rejected_members (now : ℚ) :
    ∀ (batch valid : List PyDict) (rejected : List RejectedEntry),
      filter_valid_cryptocurrencies now batch = .ok (valid, rejected) →
      ∀ en ∈ rejected, ∃ r, r ∈ batch ∧ ∃ res,
        validate_cryptocurrency now r = .ok res ∧ res.is_valid = false ∧
        en = mkRejectedEntry res r := by
  intro batch
  induction batch with
  | nil =>
    intro valid rejected h en hen
    rw [filter_valid_cryptocurrencies] at h
    simp only [Except.ok.injEq, Prod.mk.injEq] at h
    rw [← h.2] at hen
    cases hen
  | cons r0 rest ih =>
    intro valid rejected h en hen
    obtain ⟨validation, vs, ivs, hval, hf, hcase⟩ :=
      filter_cons_inversion now r0 rest valid rejected h
    rcases hcase with ⟨d, _, _, _, hrej⟩ | ⟨hbad, _, hrej⟩
    · subst hrej
      obtain ⟨r, hr, hrest⟩ := ih _ _ hf en hen
      exact ⟨r, List.mem_cons_of_mem _ hr, hrest⟩
    · subst hrej
      rcases List.mem_cons.mp hen with hhead | htail
      · refine ⟨r0, List.mem_cons_self _ _, validation, hval, ?_, hhead⟩
        obtain ⟨es, _, hshape⟩ := validate_ok_shape now r0 validation hval
        cases hivcase : validation.is_valid with
        | false => rfl
        | true =>
          exfalso
          have hdr : validation.data = some r0 := by
            rw [hshape]
            rw [hshape] at hivcase
            exact (mkValidationResult_invariant es r0).2.1 hivcase
          have hne : r0 ≠ [] := validate_valid_ne_nil now r0 validation hval hivcase
          rcases hbad with hnone | ⟨d, hdata, hcond⟩
          · rw [hdr] at hnone; cases hnone
          · rw [hdr] at hdata
            injection hdata with hder
            rw [← hder] at hcond
            rw [hivcase] at hcond
            have : r0.isEmpty = false := by
              cases hrcase : r0 with
              | nil => exact absurd hrcase hne
              | cons a t => rfl
            rw [this] at hcond
            simp at hcond
      · obtain ⟨r, hr, hrest⟩ := ih vs ivs hf en htail
        exact ⟨r, List.mem_cons_of_mem _ hr, hrest⟩

/-- Every sleep recorded by retryLoop at position j, starting from attempt
index a, is the exponential backoff delay of attempt a + j. -/
theorem retryLoop_sleep {α : Type} (caught : PyExc → Bool) (maxAttempts : Nat) (base : ℚ)
    (outcomes : Nat → AttemptResult α) :
    ∀ (fuel attempt : Nat) (last : Option PyExc) (j : Nat) (d : ℚ),
      ((retryLoop caught maxAttempts base outcomes attempt last fuel).2.1)[j]? = some d →
      d = exponential_backoff_delay (attempt + j) base := by
  intro fuel
  induction fuel with
  | zero =>
    intro attempt last j d h
    cases last <;> simp [retryLoop] at h
  | succ n ih =>
    intro attempt last j d h
    rw [retryLoop] at h
    cases ho : outcomes attempt with
    | ok v => simp only [ho] at h; simp at h
    | err e =>
      simp only [ho] at h
      cases hc : caught e with
      | false => simp [hc] at h
      | true =>
        cases hr : is_retryable_error e with
        | false => simp [hc, hr] at h
        | true =>
          by_cases hl : attempt = maxAttempts - 1
          · simp [hc, hr, hl] at h
          · simp only [hc, hr, if_neg hl] at h
            simp only [show (true = false) = False from by simp, if_false] at h
            cases j with
            | zero =>
              rw [List.getElem?_cons_zero] at h
              injection h with h2
              rw [← h2, Nat.add_zero]
            | succ m =>
              rw [List.getElem?_cons_succ] at h
              have hrec := ih (attempt + 1) (some e) m d h
              rw [hrec]
              congr 1
              omega

/-- sparklineLoop preserves the length of the price list. -/
theorem sparklineLoop_length (now : ℚ) (n : Nat) :
    ∀ (i : Nat) (l : List ℚ), (sparklineLoop now n i l).length = l.length := by
  intro i l
  induction l generalizing i with
  | nil => rfl
  | cons a t ih => simp [sparklineLoop, ih]

/-- The j-th element of sparklineLoop starting at index i pairs the j-th
price with the timestamp n - (i + j) - 1 hours before the truncated clock. -/
theorem sparklineLoop_get (now : ℚ) (n : Nat) :
    ∀ (l : List ℚ) (i j : Nat) (p : ℚ), l[j]? = some p →
      (sparklineLoop now n i l)[j]? =
        some { timestamp := truncToHour now - 3600 * ((n - (i + j) - 1 : Nat) : ℚ)
               price := p } := by
  intro l
  induction l with
  | nil => intro i j p hp; simp at hp
  | cons a t ih =>
    intro i j p hp
    cases j with
    | zero =>
      simp at hp
      subst hp
      simp [sparklineLoop]
    | succ m =>
      rw [sparklineLoop]
      simp only [List.getElem?_cons_succ] at hp ⊢
      have hrec := ih (i + 1) m p hp
      rw [hrec]
      have harith : i + 1 + m = i + (m + 1) := by omega
      rw [harith]

/- ===== Claim theorems ===== -/

/-- Claim C1: the spec states that an httpx.HTTPStatusError with response
status 429 is retryable.  The code refutes this: is_retryable_error returns
false for status 429, because the 5xx branch returns for every
HTTPStatusError (500 <= 429 < 600 is false) and leaves the dedicated 429
branch unreachable, contradicting the retry module's own comment that 429
is retryable with backoff. -/
theorem http_429_classified_not_retryable :
    is_retryable_error (PyExc.httpStatusError 429) = false := rfl

/-- Claim C2: the spec states that a batch entry whose lastUpdated field is
a naive datetime is moved to the rejected sequence without raising and the
batch continues.  The code refutes this: validate_cryptocurrency subtracts
the naive datetime from the aware datetime.now(timezone.utc), which raises
TypeError, and filter_valid_cryptocurrencies propagates it, aborting the
whole batch. -/
theorem naive_lastUpdated_aborts_batch :
    filter_valid_cryptocurrencies 0 [naiveRecord] = .error PyError.typeError := by
  rw [filter_valid_cryptocurrencies]
  rfl

/-- Claim C3: whenever the Backoff Executor sleeps before attempt k
(0-indexed, k at least 1), the recorded delay equals
min(base * 2 ^ (k - 1), 30) seconds, for every base delay and retry
budget. -/
theorem backoff_delay_before_attempt {α : Type} (caught : PyExc → Bool)
    (maxAttempts : Nat) (base : ℚ) (outcomes : Nat → AttemptResult α) (k : Nat) (d : ℚ)
    (hk : 1 ≤ k)
    (hd : ((retry_with_backoff caught maxAttempts base outcomes).2.1)[k - 1]? = some d) :
    d = min (base * 2 ^ (k - 1)) 30 := by
  have hsl := retryLoop_sleep caught maxAttempts base outcomes maxAttempts 0 Option.none
    (k - 1) d hd
  rw [hsl, exponential_backoff_delay, Nat.zero_add]

/-- Witness for C3: in a four-attempt all-500 run at base 1/2, the sleep
before attempt 2 is 1 second, which is min(1/2 * 2 ^ 1, 30). -/
theorem backoff_delay_before_attempt_witness :
    (1 : ℚ) = min ((1 : ℚ) / 2 * 2 ^ (2 - 1)) 30 :=
  backoff_delay_before_attempt (fun _ => true) 4 (1 / 2)
    (fun _ => AttemptResult.err (PyExc.httpStatusError 500)) 2 1 (by norm_num)
    retry_sleeps_concrete

/-- Claim C4: when filter_valid_cryptocurrencies returns a pair, the valid
and rejected lists partition the batch: the lengths sum to the batch length,
every individually valid record is in the valid list, no individually
invalid record is, and every rejected entry carries the record's looked-up
id, its error list, and the record itself. -/
theorem filter_batch_partition (now : ℚ) (batch valid : List PyDict)
    (rejected : List RejectedEntry)
    (h : filter_valid_cryptocurrencies now batch = .ok (valid, rejected)) :
    valid.length + rejected.length = batch.length ∧
    (∀ r ∈ batch, ∀ res, validate_cryptocurrency now r = .ok res →
      (res.is_valid = true → r ∈ valid) ∧ (res.is_valid = false → r ∉ valid)) ∧
    (∀ en ∈ rejected, ∃ r ∈ batch, ∃ res,
      validate_cryptocurrency now r = .ok res ∧ res.is_valid = false ∧
      en.id = pyGetD r "id" (.str "unknown") ∧ en.errors = res.errors ∧ en.data = r) := by
  refine ⟨filter_length now batch valid rejected h, ?_, ?_⟩
  · intro r hr res hres
    refine ⟨fun hval => filter_mem_of_valid now batch valid rejected h r hr res hres hval, ?_⟩
    intro hinv hmem
    obtain ⟨res2, hres2, hval2⟩ := filter_valid_members now batch valid rejected h r hmem
    rw [hres] at hres2
    injection hres2 with he
    rw [← he] at hval2
    rw [hval2] at hinv
    cases hinv
  · intro en hen
    obtain ⟨r, hr, res, hres, hinv, hmk⟩ :=
      filter_rejected_members now batch valid rejected h en hen
    refine ⟨r, hr, res, hres, hinv, ?_, ?_, ?_⟩ <;> rw [hmk] <;> rfl

/-- Witness for C4 on a concrete batch of one valid and one invalid record:
the lengths of the returned lists sum to the batch length. -/
theorem filter_batch_partition_witness :
    ([recGood] : List PyDict).length + ([rejEmptyEntry] : List RejectedEntry).length =
      ([recGood, ([] : PyDict)] : List PyDict).length :=
  (filter_batch_partition 0 [recGood, []] [recGood] [rejEmptyEntry] filter_concrete).1

/-- Claim C5: a failure classified as non-retryable raised on the first
attempt is propagated immediately: the wrapped operation is invoked exactly
once, no backoff sleep occurs, and attempt 2 never happens. -/
theorem nonretryable_failure_single_call {α : Type} (caught : PyExc → Bool)
    (maxAttempts : Nat) (base : ℚ) (outcomes : Nat → AttemptResult α) (e : PyExc)
    (hmax : 1 ≤ maxAttempts) (h0 : outcomes 0 = .err e)
    (hnr : is_retryable_error e = false) :
    retry_with_backoff caught maxAttempts base outcomes = (.raised e, [], 1) := by
  obtain ⟨m, rfl⟩ : ∃ m, maxAttempts = m + 1 := ⟨maxAttempts - 1, by omega⟩
  rw [retry_with_backoff, retryLoop]
  simp only [h0]
  cases hc : caught e with
  | false => rw [if_pos rfl]
  | true => rw [if_neg (by simp), if_pos hnr]

/-- Witness for C5: a 404 on attempt 1 with budget 3 is raised after exactly
one invocation. -/
theorem nonretryable_failure_single_call_witness :
    retry_with_backoff (fun _ => true) 3 1
        (fun _ => AttemptResult.err (PyExc.httpStatusError 404)) =
      ((RetryOutcome.raised (PyExc.httpStatusError 404) : RetryOutcome Unit), [], 1) :=
  nonretryable_failure_single_call (fun _ => true) 3 1
    (fun _ => AttemptResult.err (PyExc.httpStatusError 404)) (PyExc.httpStatusError 404)
    (by norm_num) rfl rfl

/-- Claim C6: compute_market_cap_category maps market caps below 1e9 to
small, caps between 1e9 and 1e10 inclusive to mid, and caps above 1e10 to
large. -/
theorem market_cap_category_thresholds (market_cap : ℚ) :
    (market_cap < 1000000000 → compute_market_cap_category market_cap = .small) ∧
    (1000000000 ≤ market_cap ∧ market_cap ≤ 10000000000 →
      compute_market_cap_category market_cap = .mid) ∧
    (10000000000 < market_cap → compute_market_cap_category market_cap = .large) := by
  refine ⟨?_, ?_, ?_⟩ <;> intro h <;> rw [compute_market_cap_category]
  · rw [if_neg (not_lt.mpr (by linarith)), if_neg (not_le.mpr h)]
  · rw [if_neg (not_lt.mpr h.2), if_pos h.1]
  · rw [if_pos h]

/-- Witness for C6 at the four boundary values named by the spec. -/
theorem market_cap_category_thresholds_witness :
    compute_market_cap_category 999999999 = .small ∧
    compute_market_cap_category 1000000000 = .mid ∧
    compute_market_cap_category 10000000000 = .mid ∧
    compute_market_cap_category 10000000001 = .large :=
  ⟨(market_cap_category_thresholds 999999999).1 (by norm_num),
   (market_cap_category_thresholds 1000000000).2.1 (by norm_num),
   (market_cap_category_thresholds 10000000000).2.1 (by norm_num),
   (market_cap_category_thresholds 10000000001).2.2 (by norm_num)⟩

/-- Claim C7: a backing-store failure during a cache read makes the get
operation return the cache-miss result None, exactly as an actual miss does,
and a backing-store or serialization failure during a cache write still
returns normally; neither failure propagates to the caller. -/
theorem cache_failures_swallowed (getClient : Except PyError CacheBackend)
    (jsonLoads : String → Except PyError PyVal) (jsonDumps : PyVal → Except PyError String)
    (key : String) (data : PyVal) (ttl : Nat) (e1 e2 : PyError)
    (hg : getJsonBody getClient jsonLoads key = .error e1)
    (hs : setJsonBody getClient jsonDumps key data ttl = .error e2) :
    cacheGetJson getClient jsonLoads key = .ret Option.none ∧
    cacheSetJson getClient jsonDumps key data ttl = .ret () ∧
    (∀ gc : Except PyError CacheBackend, getJsonBody gc jsonLoads key = .ok Option.none →
      cacheGetJson gc jsonLoads key = .ret Option.none) := by
  refine ⟨?_, ?_, ?_⟩
  · unfold cacheGetJson
    rw [hg]
  · unfold cacheSetJson
    rw [hs]
  · intro gc h2
    unfold cacheGetJson
    rw [h2]

/-- Witness for C7 with a failing backend and a failing serializer. -/
theorem cache_failures_swallowed_witness :
    cacheGetJson (.ok failingBackend) okLoads "crypto:list:top20" = .ret Option.none ∧
    cacheSetJson (.ok failingBackend) failDumps "crypto:list:top20" (.int 1) 300 = .ret () :=
  ⟨(cache_failures_swallowed (.ok failingBackend) okLoads failDumps "crypto:list:top20"
      (.int 1) 300 .connectionError .typeError rfl rfl).1,
   (cache_failures_swallowed (.ok failingBackend) okLoads failDumps "crypto:list:top20"
      (.int 1) 300 .connectionError .typeError rfl rfl).2.1⟩

/-- Claim C8: map_sparkline_data pairs the i-th of n prices with the current
clock truncated to the top of the hour minus (n - 1 - i) hours, so the last
element aligns with the current top-of-hour and consecutive timestamps step
back one hour; it preserves the length and maps the empty price list to the
empty sequence. -/
theorem sparkline_mapping (now : ℚ) (prices : List ℚ) (i : Nat) (p : ℚ)
    (hp : prices[i]? = some p) :
    (map_sparkline_data now prices)[i]? =
      some { timestamp := truncToHour now - 3600 * ((prices.length - 1 - i : Nat) : ℚ)
             price := p } ∧
    map_sparkline_data now [] = [] ∧
    (map_sparkline_data now prices).length = prices.length := by
  have hne : prices ≠ [] := by
    intro hnil
    rw [hnil] at hp
    simp at hp
  refine ⟨?_, rfl, ?_⟩
  · rw [map_sparkline_data, if_neg hne]
    have hrec := sparklineLoop_get now prices.length prices 0 i p hp
    rw [hrec]
    have harith : prices.length - (0 + i) - 1 = prices.length - 1 - i := by omega
    rw [harith]
  · rw [map_sparkline_data, if_neg hne, sparklineLoop_length]

/-- Witness for C8: three prices ending at clock 7260 get timestamps counted
back from top-of-hour 7200; shown here for the last element. -/
theorem sparkline_mapping_witness :
    (map_sparkline_data 7260 [10, 11, 12])[2]? =
      some { timestamp := truncToHour 7260 -
               3600 * ((([10, 11, 12] : List ℚ).length - 1 - 2 : Nat) : ℚ)
             price := 12 } ∧
    map_sparkline_data 7260 [] = [] ∧
    (map_sparkline_data 7260 [10, 11, 12]).length = ([10, 11, 12] : List ℚ).length :=
  sparkline_mapping 7260 [10, 11, 12] 2 12 rfl

/-- Claim C9: the CoinMarketCap mapper sets priceChange24h to
(percent change / 100) times the price and priceDirection to "up" when the
percent change is non-negative and "down" otherwise; on the sample payload
with percent 2.5 and price 100 it yields 2.5 and "up". -/
theorem cmc_mapper_change_and_direction (fromiso : String → ℚ) (api_data : CmcListing) :
    (map_coinmarketcap_response fromiso api_data).priceChange24h =
      api_data.quoteUsd.percent_change_24h / 100 * api_data.quoteUsd.price ∧
    (map_coinmarketcap_response fromiso api_data).priceDirection =
      (if api_data.quoteUsd.percent_change_24h ≥ 0 then "up" else "down") ∧
    (map_coinmarketcap_response fromiso cmcSample).priceChange24h = 5 / 2 ∧
    (map_coinmarketcap_response fromiso cmcSample).priceDirection = "up" := by
  refine ⟨rfl, rfl, ?_, ?_⟩
  · show (5 : ℚ) / 2 / 100 * 100 = 5 / 2
    norm_num
  · show (if (5 : ℚ) / 2 ≥ 0 then "up" else "down") = "up"
    norm_num

/-- Claim C10: every ValidationResult returned by validate_cryptocurrency
has is_valid exactly when its error list is empty, and carries the input
record as data exactly when valid and None otherwise; the results of
validate_price_data_point satisfy the same invariant. -/
theorem validation_result_invariant (now : ℚ) (d : PyDict) (res : ValidationResult)
    (h : validate_cryptocurrency now d = .ok res) :
    ((res.is_valid = true ↔ res.errors = []) ∧
      (res.is_valid = true → res.data = some d) ∧
      (res.is_valid = false → res.data = Option.none)) ∧
    (∀ p : PyDict,
      ((validate_price_data_point p).is_valid = true ↔
        (validate_price_data_point p).errors = []) ∧
      ((validate_price_data_point p).is_valid = true →
        (validate_price_data_point p).data = some p) ∧
      ((validate_price_data_point p).is_valid = false →
        (validate_price_data_point p).data = Option.none)) := by
  constructor
  · obtain ⟨es, _, hshape⟩ := validate_ok_shape now d res h
    rw [hshape]
    exact mkValidationResult_invariant es d
  · intro p
    exact mkValidationResult_invariant (pricePointErrors p) p

/-- Witness for C10 on the accepted concrete record. -/
theorem validation_result_invariant_witness :
    (recGoodResult.is_valid = true ↔ recGoodResult.errors = []) ∧
    (recGoodResult.is_valid = true → recGoodResult.data = some recGood) ∧
    (recGoodResult.is_valid = false → recGoodResult.data = Option.none) :=
  (validation_result_invariant 0 recGood recGoodResult validate_recGood).1
